import Mathlib

/-!
# Verification of the strawberry-graphql-django type-resolution engine

A shallow embedding of the type-resolution and field-synthesis engine of the
repository: `strawberry_django/type_extension.py` (the `DjangoTypeExtension`
class), `strawberry_django/fields/base.py` (the `StrawberryDjangoFieldBase`
field descriptor) and `strawberry_django/utils/typing.py`.

GraphQL-compatible type values (`strawberry` types) are modelled by the
inductive `GType`; Django model introspection data (`model._meta.fields`,
reverse and many-to-many relations, class attributes such as properties) is
modelled by `DModel`/`DField`/`ClsAttr`.  The helpers of
`strawberry_django/fields/types.py` (`get_model_field`, `is_optional`,
`resolve_model_field_type`, `resolve_model_field_name`) are not part of the
sources; they are modelled from the specification, as marked in their doc
comments.
-/

set_option autoImplicit false

/-- Kinds of scalar model columns (the fixed lookup table of spec §4.1 keyed on
the column's declared kind; `autoId` is an auto primary-key column). -/
inductive ScalarKind where
  | autoId
  | int
  | str
  | bool
  | float
  deriving DecidableEq, Repr

/-- Strawberry-level type values, as pattern-matched by the engine:
scalars, the `strawberry.auto` placeholder, `Any`, `Self` (used by the filter
boilerplate), the containers `Optional`/`list`, relay `Connection` types
(carrying their node type), object types (with a flag telling whether they
carry a django definition, i.e. `has_django_definition`), and unions. -/
inductive GType where
  | sInt
  | sStr
  | sBool
  | sFloat
  | sID
  | auto
  | anyT
  | selfRef
  | optional (t : GType)
  | list (t : GType)
  | connection (node : GType)
  | obj (name : String) (django : Bool)
  | union (ts : List GType)

/-- The fixed scalar lookup table (spec §4.1): each column kind maps to a
language-native scalar; auto primary keys map to the `ID` scalar. -/
def scalarTy : ScalarKind → GType
  | .autoId => .sID
  | .int => .sInt
  | .str => .sStr
  | .bool => .sBool
  | .float => .sFloat

/-- The target field of a forward relation (`ForeignKey.target_field`): the
related model's key column, with its own column kind and flags. -/
structure TField where
  name : String
  kind : ScalarKind
  null : Bool
  blank : Bool
  hasDefault : Bool
  primaryKey : Bool
  deriving DecidableEq, Repr

/-- The kind of a model attribute reference: scalar column, forward relation
(`ForeignKey`, carrying the related type's name and its target field),
many-to-many, or reverse relation. -/
inductive FieldKind where
  | scalar (k : ScalarKind)
  | foreignKey (related : String) (target : TField)
  | manyToMany (related : String)
  | reverseRel (related : String)
  deriving DecidableEq, Repr

/-- A Django model field (an element of `model._meta.fields`, or a
many-to-many/reverse relation found by `model._meta.get_field`). -/
structure DField where
  name : String
  kind : FieldKind
  null : Bool
  blank : Bool
  hasDefault : Bool
  primaryKey : Bool
  helpText : Option String
  deriving DecidableEq, Repr

/-- `model_attr.is_relation`: true for every relation kind, false for plain
columns. -/
def DField.is_relation (f : DField) : Bool :=
  match f.kind with
  | .scalar _ => false
  | _ => true

/-- `ForeignKey.target_field` lifted to a model field: the referenced key
column of the related model.  Only meaningful for `foreignKey` attributes (the
engine only calls it under an `isinstance(model_attr, ForeignKey)` guard); on
other kinds it returns the field unchanged. -/
def target_field (f : DField) : DField :=
  match f.kind with
  | .foreignKey _ t =>
      { name := t.name, kind := .scalar t.kind, null := t.null, blank := t.blank,
        hasDefault := t.hasDefault, primaryKey := t.primaryKey, helpText := none }
  | _ => f

/-- A non-field class attribute of the model reached by `getattr` when
`get_model_field` fails: a `ModelProperty` (with its declared return type), a
plain `property`/`functools.cached_property` (whose getter may or may not have
a `return` annotation), or any other attribute (recorded with its Python
truthiness, since the engine re-raises on falsy values). -/
inductive ClsAttr where
  | modelProperty (ret : GType) (desc : Option String)
  | prop (ret : Option GType)
  | cachedProp (ret : Option GType)
  | plain (truthy : Bool)

/-- A Django model: its concrete fields (`_meta.fields`, declaration order:
columns and forward relations), its many-to-many and reverse relations (not
part of `_meta.fields`), and its other class attributes (properties etc.). -/
structure DModel where
  name : String
  fields : List DField
  relations : List DField
  attrs : List (String × ClsAttr)

/-- Errors raised by the engine at class-decoration time:
`django.core.exceptions.FieldDoesNotExist` and strawberry's
`MissingFieldAnnotationError`. -/
inductive DjErr where
  | fieldDoesNotExist
  | missingFieldAnn
  deriving DecidableEq, Repr

/-- Modelled from the spec: `get_model_field` lives in
`strawberry_django/fields/types.py`, which is not among the sources.  Per the
spec's model-attribute-provider interface and error taxonomy it looks a name
up among the model's attributes (concrete fields as well as many-to-many and
reverse relations); per the primary-key surrogate rule of spec §4.1, a name
that is a relation's name with the identifier suffix (the relation's column
attribute name) also finds that relation; it raises `FieldDoesNotExist` when
the model has no such attribute. -/
def get_model_field (m : DModel) (name : String) : Except DjErr DField :=
  match (m.fields ++ m.relations).find? (fun f => f.name == name) with
  | some f => .ok f
  | none =>
      match (m.fields ++ m.relations).find? (fun f =>
          (f.name ++ "_id" == name) &&
          (match f.kind with | .foreignKey _ _ => true | _ => false)) with
      | some f => .ok f
      | none => .error .fieldDoesNotExist

/-- `str.endswith(suffix)`, via the character-list suffix relation (the
string-library primitive does not reduce in the kernel). -/
def strEndsWith (s suf : String) : Bool :=
  suf.data.isSuffixOf s.data

/-- `getattr(self.model, model_name, None)` restricted to non-field class
attributes (model fields are found by `get_model_field` first). -/
def lookupAttr (m : DModel) (name : String) : Option ClsAttr :=
  (m.attrs.find? (fun p => p.1 == name)).map (fun p => p.2)

/-- The recognized options of the process-wide settings snapshot. -/
structure Settings where
  mapAutoIdAsGlobalId : Bool
  fieldDescriptionFromHelpText : Bool
  typeDescriptionFromModelDocstring : Bool
  useDeprecatedFilters : Bool

/-- The `fields` argument of the decorator: `"__all__"`, an explicit list, or
absent (`None`). -/
inductive FieldsArg where
  | all
  | listed (fs : List String)
  | noneArg

/-- Lines 96-103 of `type_extension.py` (`DjangoTypeExtension.__init__`): the
selection of model field names from the `fields`/`exclude` arguments.
`"__all__"` takes every concrete field name; an explicit list keeps the
concrete fields whose name is listed (in model declaration order); a non-empty
`exclude` list keeps the concrete fields not excluded; otherwise no name is
selected. -/
def selectFieldNames (model : DModel) (fields : FieldsArg)
    (exclude : Option (List String)) : List String :=
  match fields with
  | .all => model.fields.map (fun f => f.name)
  | .listed fs => (model.fields.filter (fun f => fs.contains f.name)).map (fun f => f.name)
  | .noneArg =>
      match exclude with
      | some ex =>
          if ex.length > 0 then
            (model.fields.filter (fun f => !ex.contains f.name)).map (fun f => f.name)
          else []
      | none => []

/-- Lines 96-106 of `type_extension.py`: the selected names, minus `"id"` when
the `MAP_AUTO_ID_AS_GLOBAL_ID` setting is on (`names.remove("id")` removes the
first occurrence). -/
def computeModelFieldNames (model : DModel) (fields : FieldsArg)
    (exclude : Option (List String)) (mapAutoId : Bool) : List String :=
  let names := selectFieldNames model fields exclude
  if mapAutoId && names.contains "id" then names.erase "id" else names

example :
    computeModelFieldNames
      { name := "M",
        fields := [
          { name := "id", kind := .scalar .autoId, null := false, blank := true,
            hasDefault := false, primaryKey := true, helpText := none },
          { name := "title", kind := .scalar .str, null := false, blank := false,
            hasDefault := false, primaryKey := false, helpText := none }],
        relations := [], attrs := [] }
      .all none true = ["title"] := by decide

/-- The `is_filter` argument: `False`, `True` or the literal `"lookups"`. -/
inductive IsFilter where
  | no
  | yes
  | lookups
  deriving DecidableEq, Repr

/-- Python truthiness of the `is_filter` value (`if self.is_filter:`). -/
def IsFilter.truthy : IsFilter → Bool
  | .no => false
  | _ => true

/-- The state of a `DjangoTypeExtension` after `__init__` (lines 77-129 of
`type_extension.py`): the bound model, the computed `_model_field_names`, the
input/partial/filter flags, the pagination flag and the
`FIELD_DESCRIPTION_FROM_HELP_TEXT` snapshot.  The optimizer store and the
filters/order/field-class references are opaque collaborators and are not
modelled. -/
structure DjangoTypeExtension where
  model : DModel
  modelFieldNames : List String
  isInput : Bool
  isPartial : Bool
  isFilter : IsFilter
  pagination : Bool
  useFieldsDescription : Bool

/-- `DjangoTypeExtension.__init__`: computes `_model_field_names` from the
`fields`/`exclude` arguments and the `MAP_AUTO_ID_AS_GLOBAL_ID` setting, and
snapshots `FIELD_DESCRIPTION_FROM_HELP_TEXT`. -/
def DjangoTypeExtension.init (model : DModel) (isInput isPag : Bool)
    (isPart : Bool) (isFilt : IsFilter) (fields : FieldsArg)
    (exclude : Option (List String)) (settings : Settings) :
    DjangoTypeExtension :=
  { model := model,
    modelFieldNames :=
      computeModelFieldNames model fields exclude settings.mapAutoIdAsGlobalId,
    isInput := isInput,
    isPartial := isPart,
    isFilter := isFilt,
    pagination := isPag,
    useFieldsDescription := settings.fieldDescriptionFromHelpText }

/-- Modelled from the spec: `is_optional` lives in
`strawberry_django/fields/types.py`, which is not among the sources.  Spec
§4.1: "true if attribute allows null, or has a default, or (is_input and
is_partial), or is a primary key being used as an input field surrogate"; the
§8 end-to-end example additionally fixes that a blank attribute of an input is
optional (`blank: optional` in the non-partial input example, matching the
repository's `test_input_type`). -/
def is_optional (f : DField) (isInput isPart : Bool) : Bool :=
  f.null || f.hasDefault || (isInput && isPart) ||
    (isInput && (f.primaryKey || f.blank))

/-- Modelled from the spec: `resolve_model_field_type` lives in
`strawberry_django/fields/types.py`, which is not among the sources.  Spec
§4.1: scalar columns map to a language-native scalar by the fixed table on the
column kind; forward relations map to the related entity's GraphQL type,
singular; reverse and many-to-many relations map to a sequence of the related
entity's type, or to a paginated connection wrapper when the defining type
opts into connections (its `pagination` flag). -/
def resolve_model_field_type (f : DField) (pagination : Bool) : GType :=
  match f.kind with
  | .scalar k => scalarTy k
  | .foreignKey related _ => .obj related true
  | .manyToMany related =>
      if pagination then .connection (.obj related true)
      else .list (.obj related true)
  | .reverseRel related =>
      if pagination then .connection (.obj related true)
      else .list (.obj related true)

/-- Modelled from the spec: `resolve_model_field_name` lives in
`strawberry_django/fields/types.py`, which is not among the sources.  The ORM
attribute name used for queries: for a foreign-key id surrogate the column
attribute name (the relation name with the identifier suffix), otherwise the
attribute's declared name. -/
def resolve_model_field_name (f : DField) (isFkId : Bool) : String :=
  if isFkId then f.name ++ "_id" else f.name

/-- The evaluation state of a field's type annotation: either a forward
reference that does not resolve yet (`NameError` inside strawberry's
annotation resolution) or an evaluated type value. -/
inductive Ann where
  | unresolvable
  | resolved (t : GType)

/-- The result of strawberry's `StrawberryField.resolve_type` / `.type`:
either the `UNRESOLVED` sentinel or a concrete type value. -/
inductive RRes where
  | unresolved
  | ty (t : GType)

/-- `super().resolve_type()` (strawberry's own resolution): evaluates the
stored annotation, yielding `UNRESOLVED` when it cannot be evaluated yet. -/
def super_resolve_type : Ann → RRes
  | .unresolvable => .unresolved
  | .resolved t => .ty t

/-- `DjangoObjectDefinition` (the per-class metadata record of
`type_extension.py`, restricted to what the field descriptor consults):
the bound model and the input/partial/pagination flags. -/
structure DjangoObjectDefinition where
  model : DModel
  isInput : Bool
  isPartial : Bool
  pagination : Bool

/-- `StrawberryDjangoFieldBase` (`fields/base.py`): the per-field descriptor.
`ann` is the stored type annotation (`type_annotation`); `djangoNameAttr`
models `getattr(field, "django_name", default)`: `none` when the attribute is
absent (a plain `dataclasses.Field`), `some v` when present with value `v`;
`is_relation` is the flag stored by `__init__`; `djangoDef` is the
`django_definition` reached through the field's origin class. -/
structure StrawberryDjangoFieldBase where
  name : String
  pythonName : Option String
  djangoNameAttr : Option (Option String)
  description : Option String
  ann : Ann
  is_relation : Bool
  djangoDef : Option DjangoObjectDefinition

/-- `getattr(field, "python_name", field.name)`. -/
def pyNameOf (f : StrawberryDjangoFieldBase) : String :=
  f.pythonName.getD f.name

/-- `getattr(field, "django_name", None) or python_name` (line 211 of
`type_extension.py`). -/
def modelNameOf (f : StrawberryDjangoFieldBase) : String :=
  (f.djangoNameAttr.bind id).getD (pyNameOf f)

/-- The attribute bundle computed by `DjangoTypeExtension._get_model_attrs`
(lines 301-306 of `type_extension.py`). -/
structure FieldAttrs where
  django_name : Option String
  typeAnn : GType
  description : Option String
  is_relation : Bool

/-- Python truthiness of an optional string (`if f_description:`). -/
def strTruthy : Option String → Bool
  | none => false
  | some s => !(s == "")

/-- Truthiness of a class attribute (`if not model_attr: raise`): property
objects are truthy; a plain attribute carries its own truthiness. -/
def attrTruthy : ClsAttr → Bool
  | .plain b => b
  | _ => true

/-- The `help_text` consulted for the description (lines 276-288 of
`type_extension.py`): for reverse and many-to-many relations the related
field's `help_text`, otherwise the attribute's own `help_text` (both are
stored in `DField.helpText`; the contenttypes `GenericForeignKey` special case
is not modelled). -/
def fieldHelpText (f : DField) : Option String :=
  f.helpText

/-- `DjangoTypeExtension._get_model_attrs` (lines 205-306 of
`type_extension.py`): look the field's model name up on the model.  On
`FieldDoesNotExist` fall back to a class attribute: re-raise when it is absent
or falsy, take the declared annotation of a `ModelProperty`, take the getter's
return annotation of a `property`/`cached_property` (raising
`MissingFieldAnnotationError` when there is none), and re-raise for anything
else.  On success, compute the resolved type (redirected to the target field
for a foreign-key id surrogate), wrap it in `Optional` when `is_optional`
holds, and derive the description and the ORM name. -/
def get_model_attrs (ext : DjangoTypeExtension)
    (field : StrawberryDjangoFieldBase) : Except DjErr FieldAttrs :=
  let python_name := pyNameOf field
  let model_name := modelNameOf field
  match get_model_field ext.model model_name with
  | .error e =>
      match lookupAttr ext.model model_name with
      | none => .error e
      | some a =>
          if !attrTruthy a then .error e
          else
            match a with
            | .modelProperty ret d =>
                .ok { django_name := some model_name, typeAnn := ret,
                      description :=
                        if field.description.isNone && ext.useFieldsDescription
                        then d else field.description,
                      is_relation := false }
            | .prop ret =>
                match ret with
                | none => .error .missingFieldAnn
                | some r =>
                    .ok { django_name := some model_name, typeAnn := r,
                          description := field.description,
                          is_relation := false }
            | .cachedProp ret =>
                match ret with
                | none => .error .missingFieldAnn
                | some r =>
                    .ok { django_name := some model_name, typeAnn := r,
                          description := field.description,
                          is_relation := false }
            | .plain _ => .error e
  | .ok model_attr =>
      let is_fk_id := strEndsWith python_name "_id" &&
        (match model_attr.kind with | .foreignKey _ _ => true | _ => false)
      let resolved0 := resolve_model_field_type
        (if is_fk_id then target_field model_attr else model_attr)
        ext.pagination
      let resolved :=
        if is_optional model_attr ext.isInput ext.isPartial
        then GType.optional resolved0 else resolved0
      let descr :=
        if field.description.isNone && ext.useFieldsDescription &&
            strTruthy (fieldHelpText model_attr)
        then fieldHelpText model_attr else field.description
      let out_name :=
        match field.djangoNameAttr with
        | some v => v
        | none => some (resolve_model_field_name model_attr is_fk_id)
      .ok { django_name := out_name, typeAnn := resolved,
            description := descr, is_relation := model_attr.is_relation }

/-- `is_auto` (`utils/typing.py`): the annotation value is the
`strawberry.auto` placeholder. -/
def is_auto_t : GType → Bool
  | .auto => true
  | _ => false

/-- `DjangoTypeExtension.on_field` restricted to the type-resolution concern
(lines 308-362 of `type_extension.py`): a field whose evaluated annotation is
the `auto` placeholder is rebuilt from the model attributes computed by
`_get_model_attrs` (an exception propagates and aborts class creation); any
other field keeps its annotation.  Input defaulting and the private/resolver
short-circuits do not affect the type computation and are not modelled. -/
def on_field (ext : DjangoTypeExtension) (f : StrawberryDjangoFieldBase) :
    Except DjErr StrawberryDjangoFieldBase :=
  match f.ann with
  | .resolved t =>
      if is_auto_t t then
        (get_model_attrs ext f).map (fun attrs =>
          { f with ann := .resolved attrs.typeAnn,
                   djangoNameAttr := some attrs.django_name,
                   description := attrs.description,
                   is_relation := attrs.is_relation })
      else .ok f
  | .unresolvable => .ok f

/-- Lookup in an insertion-ordered string-keyed map (a Python `dict` is
modelled as an association list without duplicate keys, first match wins). -/
def dictLookup {α : Type} (m : List (String × α)) (k : String) : Option α :=
  (m.find? (fun p => p.1 == k)).map (fun p => p.2)

/-- `d[k] = v` on a Python `dict`: an existing key keeps its position and gets
the new value; a new key is appended at the end. -/
def dictInsert {α : Type} (m : List (String × α)) (k : String) (v : α) :
    List (String × α) :=
  if m.any (fun p => p.1 == k) then
    m.map (fun p => if p.1 == k then (k, v) else p)
  else m ++ [(k, v)]

/-- `d.update(kvs)` on a Python `dict`: sequential `d[k] = v` insertions. -/
def dictUpdate {α : Type} (m : List (String × α)) (kvs : List (String × α)) :
    List (String × α) :=
  kvs.foldl (fun acc p => dictInsert acc p.1 p.2) m

/-- The class body being decorated, as seen by `on_wrap_dataclass`: the
class's own `__annotations__` dict and the set of names for which
`hasattr(cls, name)` holds (own or inherited attributes, e.g. fields with
values or methods). -/
structure ClsState where
  name : String
  anns : List (String × GType)
  attrNames : List String

/-- Lines 138-141 of `type_extension.py`: for every selected model field name
that is neither in the class's own annotations nor an existing class
attribute, inject the `auto` placeholder annotation. -/
def inject_auto_fields (ext : DjangoTypeExtension) (cls : ClsState) :
    List (String × GType) :=
  ext.modelFieldNames.foldl
    (fun anns name =>
      if anns.any (fun p => p.1 == name) || cls.attrNames.contains name then anns
      else anns ++ [(name, GType.auto)])
    cls.anns

/-- The pre-`yield` half of `DjangoTypeExtension.on_wrap_dataclass` (lines
131-153 of `type_extension.py`): inject `auto` annotations for the selected
model field names, then, for filterable types, `dict.update` the four filter
boilerplate entries `AND`/`OR`/`NOT` (each `Optional[Self]`) and `DISTINCT`
(`Optional[bool]`). -/
def on_wrap_dataclass_before (ext : DjangoTypeExtension) (cls : ClsState) :
    ClsState :=
  let anns := inject_auto_fields ext cls
  let anns :=
    if ext.isFilter.truthy then
      dictUpdate anns
        [("AND", .optional .selfRef), ("OR", .optional .selfRef),
         ("NOT", .optional .selfRef), ("DISTINCT", .optional .sBool)]
    else anns
  { cls with anns := anns }

/-- `unwrap_type` (`utils/typing.py`): strip `StrawberryContainer` wrappers
(`Optional` and `list`) until a non-container type remains (lazy types are not
modelled). -/
def unwrap_type : GType → GType
  | .optional t => unwrap_type t
  | .list t => unwrap_type t
  | t => t

/-- The inner `while isinstance(t, StrawberryContainer)` loop of
`django_type` (lines 120-121 of `fields/base.py`). -/
def stripContainers : GType → GType
  | .optional t => stripContainers t
  | .list t => stripContainers t
  | t => t

/-- `has_django_definition` (`utils/typing.py`): the type carries a
`__strawberry_django_definition__`. -/
def has_django_definition : GType → Bool
  | .obj _ django => django
  | _ => false

/-- `StrawberryDjangoFieldBase.django_type` (lines 86-128 of
`fields/base.py`), as a function of the field's resolved type: a `Connection`
contributes its node type; containers are unwrapped; for a union, the
candidates are the members stripped of containers that carry a django
definition — a single candidate is taken, otherwise the resolution falls back
to `None`; finally only a type with a django definition is returned. -/
def django_type (t : GType) : Option GType :=
  let origin := match t with
    | .connection node => node
    | _ => t
  let origin := unwrap_type origin
  let origin : Option GType :=
    match origin with
    | .union ts =>
        let originList := (ts.map stripContainers).filter
          (fun x => has_django_definition x)
        if originList.length == 1 then originList.head? else none
    | x => some x
  match origin with
  | some x => if has_django_definition x then some x else none
  | none => none

/-- `self.type` of the field descriptor: strawberry's evaluation of the
stored annotation. -/
def StrawberryDjangoFieldBase.fieldType (f : StrawberryDjangoFieldBase) :
    RRes :=
  super_resolve_type f.ann

/-- `StrawberryDjangoFieldBase.is_optional` (lines 139-141 of
`fields/base.py`): `isinstance(self.type, StrawberryOptional)`. -/
def StrawberryDjangoFieldBase.is_optional (f : StrawberryDjangoFieldBase) :
    Bool :=
  match f.fieldType with
  | .ty (.optional _) => true
  | _ => false

/-- `StrawberryDjangoFieldBase.is_list` (lines 143-149 of `fields/base.py`):
strip one `Optional` wrapper if present, then `isinstance(_, StrawberryList)`.
-/
def StrawberryDjangoFieldBase.is_list (f : StrawberryDjangoFieldBase) : Bool :=
  match f.fieldType with
  | .ty t =>
      match (match t with | .optional u => u | _ => t) with
      | .list _ => true
      | _ => false
  | .unresolved => false

/-- `StrawberryDjangoFieldBase.is_connection` (lines 151-157 of
`fields/base.py`): strip one `Optional` wrapper if present, then
`issubclass(_, relay.Connection)`. -/
def StrawberryDjangoFieldBase.is_connection (f : StrawberryDjangoFieldBase) :
    Bool :=
  match f.fieldType with
  | .ty t =>
      match (match t with | .optional u => u | _ => t) with
      | .connection _ => true
      | _ => false
  | .unresolved => false

/-- Alias for the model-level `is_optional` of `fields/types.py`, usable
inside the `StrawberryDjangoFieldBase` namespace where that name is shadowed
by the field property of the same name. -/
def model_is_optional : DField → Bool → Bool → Bool := is_optional

/-- The outcome of one call to `resolve_type`: the returned value, the field
state after the call (its `type_annotation` slot may have been rewritten), and
the number of `get_model_field` model lookups the call performed. -/
structure ResolveOutcome where
  result : RRes
  state : StrawberryDjangoFieldBase
  lookups : Nat

/-- The final guard of `resolve_type` (lines 228-229 of `fields/base.py`): a
result that is still the `auto` placeholder is replaced by the `UNRESOLVED`
sentinel. -/
def finalizeAuto : RRes → RRes
  | .ty t => if is_auto_t t then .unresolved else .ty t
  | r => r

/-- `StrawberryDjangoFieldBase.resolve_type` (lines 184-231 of
`fields/base.py`): delegate to strawberry's resolution; return early on
`UNRESOLVED` or when the field has no django definition; when the unwrapped
result is `Any` or the `auto` placeholder, look the attribute up on the bound
model (`get_model_field` may raise), compute the model-derived type with the
foreign-key id redirection and the optionality wrap, store it in the
`type_annotation` slot and re-read `super().type`; finally map a still-`auto`
result to `UNRESOLVED`. -/
def StrawberryDjangoFieldBase.resolve_type (f : StrawberryDjangoFieldBase) :
    Except DjErr ResolveOutcome :=
  match super_resolve_type f.ann with
  | .unresolved => .ok ⟨.unresolved, f, 0⟩
  | .ty t =>
      match f.djangoDef with
      | none => .ok ⟨.ty t, f, 0⟩
      | some djangoDef =>
          let unwraped := unwrap_type t
          if (match unwraped with | .anyT => true | _ => false) ||
              is_auto_t unwraped then
            match get_model_field djangoDef.model (modelNameOf f) with
            | .error e => .error e
            | .ok model_field =>
                let isFkId := strEndsWith (pyNameOf f) "_id" &&
                  (match model_field.kind with
                   | .foreignKey _ _ => true | _ => false)
                let resolved0 := resolve_model_field_type
                  (if isFkId then target_field model_field else model_field)
                  djangoDef.pagination
                let resolvedTy :=
                  if model_is_optional model_field djangoDef.isInput
                      djangoDef.isPartial
                  then GType.optional resolved0 else resolved0
                let f' := { f with ann := .resolved resolvedTy }
                .ok ⟨finalizeAuto (super_resolve_type f'.ann), f', 1⟩
          else .ok ⟨finalizeAuto (.ty t), f, 0⟩

/-! ## Example fixtures

Concrete models mirroring the repository's test models
(`InputFieldsModel` from `tests/fields/test_input.py` and `Fruit` from
`tests/filters/test_types.py`). -/

/-- A settings snapshot with every option off. -/
def settingsOff : Settings :=
  { mapAutoIdAsGlobalId := false, fieldDescriptionFromHelpText := false,
    typeDescriptionFromModelDocstring := false, useDeprecatedFilters := false }

/-- An auto primary-key column (`models.AutoField`: `blank=True`,
`primary_key=True`). -/
def idField : DField :=
  { name := "id", kind := .scalar .autoId, null := false, blank := true,
    hasDefault := false, primaryKey := true, helpText := none }

/-- `mandatory = models.IntegerField()`. -/
def mandatoryField : DField :=
  { name := "mandatory", kind := .scalar .int, null := false, blank := false,
    hasDefault := false, primaryKey := false, helpText := none }

/-- `default = models.IntegerField(default=1)`. -/
def defaultField : DField :=
  { name := "default", kind := .scalar .int, null := false, blank := false,
    hasDefault := true, primaryKey := false, helpText := none }

/-- `blank = models.IntegerField(blank=True)`. -/
def blankField : DField :=
  { name := "blank", kind := .scalar .int, null := false, blank := true,
    hasDefault := false, primaryKey := false, helpText := none }

/-- `null = models.IntegerField(null=True)`. -/
def nullField : DField :=
  { name := "null", kind := .scalar .int, null := true, blank := false,
    hasDefault := false, primaryKey := false, helpText := none }

/-- `name = models.CharField(...)`. -/
def nameField : DField :=
  { name := "name", kind := .scalar .str, null := false, blank := false,
    hasDefault := false, primaryKey := false, helpText := none }

/-- `color = models.ForeignKey(Color, null=True, ...)`: a nullable forward
relation whose target field is the related auto primary key. -/
def colorField : DField :=
  { name := "color",
    kind := .foreignKey "Color"
      { name := "id", kind := .autoId, null := false, blank := true,
        hasDefault := false, primaryKey := true },
    null := true, blank := false, hasDefault := false, primaryKey := false,
    helpText := none }

/-- `types = models.ManyToManyField(FruitType, ...)`: a many-to-many relation,
not part of `_meta.fields`. -/
def typesRel : DField :=
  { name := "types", kind := .manyToMany "FruitType", null := false,
    blank := false, hasDefault := false, primaryKey := false,
    helpText := none }

/-- The `InputFieldsModel` of `tests/fields/test_input.py`. -/
def inputFieldsModel : DModel :=
  { name := "InputFieldsModel",
    fields := [idField, mandatoryField, defaultField, blankField, nullField],
    relations := [], attrs := [] }

/-- The `Fruit` model of the filter tests: scalar columns, a nullable forward
relation and a many-to-many relation. -/
def fruitModel : DModel :=
  { name := "Fruit", fields := [idField, nameField, colorField],
    relations := [typesRel], attrs := [] }

/-- `@strawberry_django.input(InputFieldsModel)`: a non-partial input. -/
def inputExt : DjangoTypeExtension :=
  DjangoTypeExtension.init inputFieldsModel true false false .no .noneArg none
    settingsOff

/-- `@strawberry_django.type(Fruit)`: a plain output type. -/
def fruitExt : DjangoTypeExtension :=
  DjangoTypeExtension.init fruitModel false false false .no .noneArg none
    settingsOff

/-- A declared `auto` field named `n`, as it reaches `on_field` during
decoration. -/
def autoFieldNamed (n : String) : StrawberryDjangoFieldBase :=
  { name := n, pythonName := some n, djangoNameAttr := none,
    description := none, ann := .resolved .auto, is_relation := false,
    djangoDef := none }

/-! ## C2: ambiguous union resolution -/

/-- A field declared with a union of two model-backed types. -/
def ambiguousUnionField : StrawberryDjangoFieldBase :=
  { name := "kind", pythonName := some "kind", djangoNameAttr := none,
    description := none,
    ann := .resolved (.union [.obj "A" true, .obj "B" true]),
    is_relation := false, djangoDef := none }

/-- C2 counterexample: for a union containing two model-backed candidate
types, the union resolution of `django_type` yields `none` (no match), a
plain value and not an exception, and class decoration (`on_field`) processes
such a field without any error — no fatal definition error is raised,
contradicting the claim that decoration aborts on an ambiguous union. -/
theorem ambiguous_union_resolves_to_none_without_error :
    django_type (.union [.obj "A" true, .obj "B" true]) = none ∧
    on_field fruitExt ambiguousUnionField = .ok ambiguousUnionField :=
  ⟨rfl, rfl⟩

/-- C2 (amended): when the number of model-backed candidates in a union
(members stripped of containers that carry a django definition) is not
exactly one, `django_type` silently resolves to `none` rather than raising a
definition error; decoration continues. -/
theorem django_type_ambiguous_union_is_silent_none (ts : List GType)
    (h : ((ts.map stripContainers).filter
      (fun x => has_django_definition x)).length ≠ 1) :
    django_type (.union ts) = none := by
  have hfalse : (((ts.map stripContainers).filter
      (fun x => has_django_definition x)).length == 1) = false :=
    beq_eq_false_iff_ne.mpr h
  simp [django_type, unwrap_type, hfalse]

/-- C2 witness: a union with three members, two of them model-backed,
resolves to `none`. -/
theorem django_type_ambiguous_union_is_silent_none_witness :
    django_type (.union [.obj "A" true, .obj "B" true, .sInt]) = none :=
  django_type_ambiguous_union_is_silent_none
    [.obj "A" true, .obj "B" true, .sInt] (by decide)

/-! ## C3: foreign-key id surrogate fields -/

/-- C3: for an auto field whose python name ends in the identifier suffix and
whose model attribute is a forward relation, `_get_model_attrs` resolves the
field type to the scalar type of the relation's target field (modulo the
optionality wrap), and that type is never the related entity's GraphQL type —
in particular it does not depend on the related type at all (the right-hand
side below does not mention `related`). -/
theorem fk_id_field_resolves_to_target_key (ext : DjangoTypeExtension)
    (f : StrawberryDjangoFieldBase) (mf : DField) (related : String)
    (tgt : TField) (attrs : FieldAttrs)
    (hend : strEndsWith (pyNameOf f) "_id" = true)
    (hmf : get_model_field ext.model (modelNameOf f) = .ok mf)
    (hkind : mf.kind = .foreignKey related tgt)
    (hok : get_model_attrs ext f = .ok attrs) :
    attrs.typeAnn =
      (if is_optional mf ext.isInput ext.isPartial then
        GType.optional (scalarTy tgt.kind) else scalarTy tgt.kind) ∧
    unwrap_type attrs.typeAnn ≠ .obj related true := by
  simp only [get_model_attrs, hmf, hend, hkind, target_field,
    resolve_model_field_type, Bool.true_and, if_true, Except.ok.injEq] at hok
  subst hok
  constructor
  · rfl
  · cases hopt : is_optional mf ext.isInput ext.isPartial <;>
      cases tgt.kind <;>
        simp [hopt, unwrap_type, scalarTy]

/-- A declared `color_id: auto` field on the `Fruit` type. -/
def colorIdAutoField : StrawberryDjangoFieldBase := autoFieldNamed "color_id"

/-- The attribute bundle `_get_model_attrs` computes for `color_id`: the
target key scalar (`ID`), optional because the relation is nullable. -/
def colorIdAttrs : FieldAttrs :=
  { django_name := some "color_id", typeAnn := .optional .sID,
    description := none, is_relation := true }

/-- C3 witness: on the concrete `Fruit` model, `color_id` resolves to the
related key scalar `ID` (wrapped optional since the relation is nullable) and
not to the `Color` type. -/
theorem fk_id_field_resolves_to_target_key_witness :
    colorIdAttrs.typeAnn =
      (if is_optional colorField fruitExt.isInput fruitExt.isPartial then
        GType.optional (scalarTy ScalarKind.autoId)
       else scalarTy ScalarKind.autoId) ∧
    unwrap_type colorIdAttrs.typeAnn ≠ .obj "Color" true :=
  fk_id_field_resolves_to_target_key fruitExt colorIdAutoField colorField
    "Color"
    { name := "id", kind := .autoId, null := false, blank := true,
      hasDefault := false, primaryKey := true }
    colorIdAttrs (by decide) rfl rfl rfl

/-! ## C10: the selection of auto-included names -/

/-- C10: the selected names are always drawn from the model's concrete fields
(`_meta.fields`), as a sublist — so also in model declaration order; a
many-to-many or reverse relation name that is not also a concrete field name
is never selected, even under `"__all__"`; an explicit field list selects
exactly the listed names that are concrete field names (unlisted and unknown
names are silently ignored); an empty exclusion list selects no names at all,
exactly as when no selection is given. -/
theorem field_selection_concrete_only (model : DModel) (fields : FieldsArg)
    (exclude : Option (List String)) (mapAutoId : Bool) :
    (computeModelFieldNames model fields exclude mapAutoId).Sublist
      (model.fields.map (fun f => f.name)) ∧
    (∀ n, n ∈ model.relations.map (fun f => f.name) →
      n ∉ model.fields.map (fun f => f.name) →
      n ∉ computeModelFieldNames model fields exclude mapAutoId) ∧
    (∀ fs n, n ∈ selectFieldNames model (.listed fs) exclude ↔
      (fs.contains n = true ∧ n ∈ model.fields.map (fun f => f.name))) ∧
    computeModelFieldNames model .noneArg (some []) mapAutoId = [] ∧
    computeModelFieldNames model .noneArg none mapAutoId = [] := by
  have hsel : ∀ fa : FieldsArg,
      (selectFieldNames model fa exclude).Sublist
        (model.fields.map (fun f => f.name)) := by
    intro fa
    cases fa with
    | all => simp [selectFieldNames]
    | listed fs => exact (List.filter_sublist _).map _
    | noneArg =>
        cases exclude with
        | some ex =>
            by_cases h : ex.length > 0
            · simp only [selectFieldNames, if_pos h]
              exact (List.filter_sublist _).map _
            · simp [selectFieldNames, h]
        | none => simp [selectFieldNames]
  have hcomp : (computeModelFieldNames model fields exclude mapAutoId).Sublist
      (model.fields.map (fun f => f.name)) := by
    simp only [computeModelFieldNames]
    split
    · exact (List.erase_sublist _ _).trans (hsel fields)
    · exact hsel fields
  refine ⟨hcomp, ?_, ?_, ?_, ?_⟩
  · intro n _ hnot hmem
    exact hnot (hcomp.mem hmem)
  · intro fs n
    simp only [selectFieldNames, List.mem_map, List.mem_filter]
    constructor
    · rintro ⟨f, ⟨hf, hc⟩, hname⟩
      exact ⟨hname ▸ hc, ⟨f, hf, hname⟩⟩
    · rintro ⟨hc, f, hf, hname⟩
      exact ⟨f, ⟨hf, hname ▸ hc⟩, hname⟩
  · simp [computeModelFieldNames, selectFieldNames]
  · simp [computeModelFieldNames, selectFieldNames]

/-- C10 witness: on the concrete `Fruit` model, the many-to-many name
`types` is not selected under `"__all__"`, and the explicit-list
characterization holds at a list naming one real and one unknown field. -/
theorem field_selection_concrete_only_witness :
    "types" ∉ computeModelFieldNames fruitModel .all none true ∧
    ("color" ∈ selectFieldNames fruitModel (.listed ["color", "bogus"]) none ↔
      ((["color", "bogus"].contains "color" = true) ∧
        "color" ∈ fruitModel.fields.map (fun f => f.name))) :=
  ⟨(field_selection_concrete_only fruitModel .all none true).2.1 "types"
      (by decide) (by decide),
   (field_selection_concrete_only fruitModel .noneArg none true).2.2.1
      ["color", "bogus"] "color"⟩

/-! ## C9: the derived boolean field properties -/

/-- The claim-side shape predicate: the type's outermost wrapper is
`Optional`. -/
def isOptionalWrapped : GType → Bool
  | .optional _ => true
  | _ => false

/-- Strip at most one `Optional` wrapper (claim-side). -/
def stripOneOptional : GType → GType
  | .optional t => t
  | t => t

/-- The claim-side shape predicate: after stripping at most one `Optional`
wrapper, the type is a list. -/
def specIsList (t : GType) : Bool :=
  match stripOneOptional t with
  | .list _ => true
  | _ => false

/-- The claim-side shape predicate: after stripping at most one `Optional`
wrapper, the type is a connection. -/
def specIsConnection (t : GType) : Bool :=
  match stripOneOptional t with
  | .connection _ => true
  | _ => false

/-- C9 (amended): `is_optional`, `is_list` and `is_connection` are pure
functions of the field's resolved type — two fields with the same annotation
agree on all three — and they match the claimed shape predicates
(outermost-optional, and list/connection after stripping at most one
optional).  `is_relation` is not among them: it is a stored constructor
argument (see the counterexample). -/
theorem derived_flags_are_shape_functions (f g : StrawberryDjangoFieldBase) :
    (f.ann = g.ann →
      f.is_optional = g.is_optional ∧ f.is_list = g.is_list ∧
        f.is_connection = g.is_connection) ∧
    (∀ t, f.fieldType = .ty t →
      f.is_optional = isOptionalWrapped t ∧ f.is_list = specIsList t ∧
        f.is_connection = specIsConnection t) := by
  constructor
  · intro h
    refine ⟨?_, ?_, ?_⟩ <;>
      simp [StrawberryDjangoFieldBase.is_optional,
        StrawberryDjangoFieldBase.is_list,
        StrawberryDjangoFieldBase.is_connection,
        StrawberryDjangoFieldBase.fieldType, h]
  · intro t ht
    refine ⟨?_, ?_, ?_⟩ <;>
      · simp only [StrawberryDjangoFieldBase.is_optional,
          StrawberryDjangoFieldBase.is_list,
          StrawberryDjangoFieldBase.is_connection, ht]
        cases t <;>
          simp [isOptionalWrapped, specIsList, specIsConnection,
            stripOneOptional]

/-- A field declared with the explicit annotation `Optional[Color]` — not an
`auto` field, so `on_field` leaves it untouched, keeping the default
`is_relation = False`. -/
def declaredColorField : StrawberryDjangoFieldBase :=
  { name := "declared_color", pythonName := some "declared_color",
    djangoNameAttr := none, description := none,
    ann := .resolved (.optional (.obj "Color" true)),
    is_relation := false, djangoDef := none }

/-- The field `on_field` produces for an auto `color` field of `Fruit`: same
resolved type as `declaredColorField`, but `is_relation = True` taken from
the model attribute. -/
def resolvedColorField : StrawberryDjangoFieldBase :=
  { name := "color", pythonName := some "color",
    djangoNameAttr := some (some "color"), description := none,
    ann := .resolved (.optional (.obj "Color" true)), is_relation := true,
    djangoDef := none }

/-- C9 counterexample: two fields produced by decoration with the same
resolved type (`Optional[Color]`) but different `is_relation` values —
`is_relation` is a stored attribute, not a function of the resolved type's
shape. -/
theorem is_relation_not_a_shape_function :
    on_field fruitExt declaredColorField = .ok declaredColorField ∧
    on_field fruitExt (autoFieldNamed "color") = .ok resolvedColorField ∧
    declaredColorField.fieldType = resolvedColorField.fieldType ∧
    declaredColorField.is_relation = false ∧
    resolvedColorField.is_relation = true :=
  ⟨rfl, rfl, rfl, rfl, rfl⟩

/-- C9 witness: the shape characterization applied to the concrete
`Optional[Color]` field. -/
theorem derived_flags_are_shape_functions_witness :
    declaredColorField.is_optional =
      isOptionalWrapped (.optional (.obj "Color" true)) ∧
    declaredColorField.is_list = specIsList (.optional (.obj "Color" true)) ∧
    declaredColorField.is_connection =
      specIsConnection (.optional (.obj "Color" true)) :=
  (derived_flags_are_shape_functions declaredColorField
    resolvedColorField).2 (.optional (.obj "Color" true)) rfl

/-! ## C1: optionality of auto-resolved fields -/

/-- The model-derived type before the optionality wrap is never itself
`Optional`. -/
theorem resolve_model_field_type_not_optional (g : DField) (p : Bool) :
    isOptionalWrapped (resolve_model_field_type g p) = false := by
  cases hk : g.kind with
  | scalar k =>
      cases k <;> simp [resolve_model_field_type, hk, scalarTy,
        isOptionalWrapped]
  | foreignKey r t => simp [resolve_model_field_type, hk, isOptionalWrapped]
  | manyToMany r =>
      cases p <;> simp [resolve_model_field_type, hk, isOptionalWrapped]
  | reverseRel r =>
      cases p <;> simp [resolve_model_field_type, hk, isOptionalWrapped]

/-- The conditional optionality wrap is observable: the wrapped type is
outermost-optional exactly when the condition held. -/
theorem wrapped_iff (b : Bool) (t : GType) (h : isOptionalWrapped t = false) :
    isOptionalWrapped (if b then GType.optional t else t) = b := by
  cases b with
  | false => exact h
  | true => rfl

/-- C1 counterexample: in a non-partial input over `InputFieldsModel`, the
auto `id` field (the primary key: not nullable, no default) resolves to an
`Optional`-wrapped type although the claimed formula — nullable, or default,
or input-and-partial — is false, so optionality is not the claimed function
of (nullability, default, is_input, is_partial).  This matches the
repository's own `test_input_type`, which expects `("id",
StrawberryOptional(strawberry.ID))` for the non-partial input. -/
theorem optionality_claim_fails_for_pk_in_input :
    (get_model_attrs inputExt (autoFieldNamed "id")).map
      (fun a => isOptionalWrapped a.typeAnn) = .ok true ∧
    (idField.null || idField.hasDefault ||
      (inputExt.isInput && inputExt.isPartial)) = false :=
  ⟨rfl, rfl⟩

/-- C1 (amended): the resolved type of an auto field is `Optional`-wrapped
exactly when the attribute allows null, or has a default, or the definition is
an input and (the definition is partial, or the attribute is a primary key or
blank); in particular, for a required (non-null, no-default, non-primary-key,
non-blank) attribute of an input the field is optional exactly when the input
is partial. -/
theorem get_model_attrs_optionality (ext : DjangoTypeExtension)
    (f : StrawberryDjangoFieldBase) (mf : DField) (attrs : FieldAttrs)
    (hmf : get_model_field ext.model (modelNameOf f) = .ok mf)
    (hok : get_model_attrs ext f = .ok attrs) :
    isOptionalWrapped attrs.typeAnn =
      (mf.null || mf.hasDefault ||
        (ext.isInput && (ext.isPartial || mf.primaryKey || mf.blank))) ∧
    ((mf.null = false ∧ mf.hasDefault = false ∧ mf.primaryKey = false ∧
        mf.blank = false ∧ ext.isInput = true) →
      isOptionalWrapped attrs.typeAnn = ext.isPartial) := by
  simp only [get_model_attrs, hmf, Except.ok.injEq] at hok
  subst hok
  constructor
  · rw [wrapped_iff _ _ (resolve_model_field_type_not_optional _ _)]
    simp only [is_optional]
    cases ext.isInput <;> cases ext.isPartial <;> cases mf.primaryKey <;>
      cases mf.blank <;> simp
  · rintro ⟨h1, h2, h3, h4, h5⟩
    rw [wrapped_iff _ _ (resolve_model_field_type_not_optional _ _)]
    simp [is_optional, h1, h2, h3, h4, h5]

/-- The attribute bundle computed for the required `mandatory` column in a
non-partial input: not optional. -/
def mandatoryInputAttrs : FieldAttrs :=
  { django_name := some "mandatory", typeAnn := .sInt, description := none,
    is_relation := false }

/-- C1 witness: the amended optionality characterization applied to the
required `mandatory` column of the concrete non-partial input. -/
theorem get_model_attrs_optionality_witness :
    isOptionalWrapped mandatoryInputAttrs.typeAnn =
      (mandatoryField.null || mandatoryField.hasDefault ||
        (inputExt.isInput && (inputExt.isPartial ||
          mandatoryField.primaryKey || mandatoryField.blank))) ∧
    isOptionalWrapped mandatoryInputAttrs.typeAnn = inputExt.isPartial := by
  have h := get_model_attrs_optionality inputExt (autoFieldNamed "mandatory")
    mandatoryField mandatoryInputAttrs rfl rfl
  exact ⟨h.1, h.2 ⟨rfl, rfl, rfl, rfl, rfl⟩⟩

/-! ## C4: filter boilerplate injection -/

/-- `d[k] = v` appends when the key is not yet present. -/
theorem dictInsert_of_fresh {α : Type} (m : List (String × α)) (k : String)
    (v : α) (h : m.any (fun p => p.1 == k) = false) :
    dictInsert m k v = m ++ [(k, v)] := by
  simp [dictInsert, h]

/-- Key membership over an appended singleton entry. -/
theorem any_key_append {α : Type} (m : List (String × α)) (k k' : String)
    (v : α) :
    ((m ++ [(k, v)]).any fun p => p.1 == k') =
      ((m.any fun p => p.1 == k') || (k == k')) := by
  simp [List.any_append]

/-- The injection loop only ever appends entries to the annotations dict. -/
theorem foldl_inject_appends (attrs : List String) (names : List String)
    (acc : List (String × GType)) :
    ∃ d, names.foldl (fun anns n =>
        if anns.any (fun p => p.1 == n) || attrs.contains n then anns
        else anns ++ [(n, GType.auto)]) acc = acc ++ d := by
  induction names generalizing acc with
  | nil => exact ⟨[], by simp⟩
  | cons n rest ih =>
      simp only [List.foldl]
      by_cases h : (acc.any (fun p => p.1 == n) || attrs.contains n) = true
      · rw [if_pos h]
        exact ih acc
      · rw [if_neg h]
        obtain ⟨d, hd⟩ := ih (acc ++ [(n, GType.auto)])
        exact ⟨(n, GType.auto) :: d, by simp [hd]⟩

/-- `inject_auto_fields` appends the model-derived entries after the
user-declared annotations. -/
theorem inject_auto_fields_appends (ext : DjangoTypeExtension)
    (cls : ClsState) :
    ∃ d, inject_auto_fields ext cls = cls.anns ++ d := by
  unfold inject_auto_fields
  exact foldl_inject_appends cls.attrNames ext.modelFieldNames cls.anns

/-- A filterable type declaration with no selected model fields
(`@strawberry_django.filters.filter(Fruit)` without a `fields` argument). -/
def filterExt : DjangoTypeExtension :=
  DjangoTypeExtension.init fruitModel false false false .yes .noneArg none
    settingsOff

/-- A filter class body that itself declares a field named `AND`. -/
def clsWithAND : ClsState :=
  { name := "Filter", anns := [("AND", .sInt)], attrNames := [] }

/-- C4 counterexample: when the class itself declares a field named `AND`,
the filter injection overwrites that entry in place (Python `dict.update`
keeps the position of an existing key) and appends only the other three
boilerplate fields — the result has 4 annotations, not the 1 + 4 the claim
("exactly four extra fields appended after all user-declared fields")
requires. -/
theorem filter_injection_overwrites_declared_name :
    (on_wrap_dataclass_before filterExt clsWithAND).anns =
      [("AND", .optional .selfRef), ("OR", .optional .selfRef),
       ("NOT", .optional .selfRef), ("DISTINCT", .optional .sBool)] ∧
    (on_wrap_dataclass_before filterExt clsWithAND).anns.length ≠
      clsWithAND.anns.length + 4 :=
  ⟨rfl, by decide⟩

/-- C4 (amended): declaring a type as filterable injects the four boilerplate
entries `AND`/`OR`/`NOT` (each optional-self) and `DISTINCT` (optional
boolean) by dict update; when none of the four names is already present after
the auto injection, this appends exactly those four fields, in that order,
after all user-declared and model-derived fields (the model-derived entries
themselves having been appended after the user-declared ones); a name already
present is instead overwritten in its original position. -/
theorem filter_injection_appends_four (ext : DjangoTypeExtension)
    (cls : ClsState) (hfil : ext.isFilter.truthy = true)
    (hfresh : ∀ k, k ∈ ["AND", "OR", "NOT", "DISTINCT"] →
      (inject_auto_fields ext cls).any (fun p => p.1 == k) = false) :
    (on_wrap_dataclass_before ext cls).anns =
      inject_auto_fields ext cls ++
        [("AND", .optional .selfRef), ("OR", .optional .selfRef),
         ("NOT", .optional .selfRef), ("DISTINCT", .optional .sBool)] ∧
    ∃ derived, inject_auto_fields ext cls = cls.anns ++ derived := by
  have hAND := hfresh "AND" (by simp)
  have hOR := hfresh "OR" (by simp)
  have hNOT := hfresh "NOT" (by simp)
  have hDIS := hfresh "DISTINCT" (by simp)
  refine ⟨?_, inject_auto_fields_appends ext cls⟩
  have f2 : (((inject_auto_fields ext cls) ++
      [("AND", GType.optional .selfRef)]).any fun p => p.1 == "OR") =
        false := by
    rw [any_key_append, hOR]
    decide
  have f3 : ((((inject_auto_fields ext cls) ++
      [("AND", GType.optional .selfRef)]) ++
        [("OR", GType.optional .selfRef)]).any fun p => p.1 == "NOT") =
        false := by
    rw [any_key_append, any_key_append, hNOT]
    decide
  have f4 : (((((inject_auto_fields ext cls) ++
      [("AND", GType.optional .selfRef)]) ++
        [("OR", GType.optional .selfRef)]) ++
          [("NOT", GType.optional .selfRef)]).any
            fun p => p.1 == "DISTINCT") = false := by
    rw [any_key_append, any_key_append, any_key_append, hDIS]
    decide
  have e1 := dictInsert_of_fresh (inject_auto_fields ext cls) "AND"
    (GType.optional .selfRef) hAND
  have e2 := dictInsert_of_fresh _ "OR" (GType.optional .selfRef) f2
  have e3 := dictInsert_of_fresh _ "NOT" (GType.optional .selfRef) f3
  have e4 := dictInsert_of_fresh _ "DISTINCT" (GType.optional .sBool) f4
  simp only [on_wrap_dataclass_before, hfil, if_true, dictUpdate, List.foldl,
    e1, e2, e3, e4]
  simp

/-- A filterable type selecting the `name` model field. -/
def filterExtWithName : DjangoTypeExtension :=
  DjangoTypeExtension.init fruitModel false false false .yes
    (.listed ["name"]) none settingsOff

/-- A filter class body declaring one ordinary field. -/
def plainFilterCls : ClsState :=
  { name := "Filter2", anns := [("declared", .sStr)], attrNames := [] }

/-- C4 witness: on a concrete filterable type with one declared and one
model-derived field, the four boilerplate fields are appended at the end. -/
theorem filter_injection_appends_four_witness :
    (on_wrap_dataclass_before filterExtWithName plainFilterCls).anns =
      inject_auto_fields filterExtWithName plainFilterCls ++
        [("AND", .optional .selfRef), ("OR", .optional .selfRef),
         ("NOT", .optional .selfRef), ("DISTINCT", .optional .sBool)] ∧
    ∃ derived, inject_auto_fields filterExtWithName plainFilterCls =
      plainFilterCls.anns ++ derived :=
  filter_injection_appends_four filterExtWithName plainFilterCls rfl
    (by decide)

/-! ## C7: decoration-time failure on malformed model attributes -/

/-- C7: when the field's model name is no model attribute
(`get_model_field` raises) — and the fallback class-attribute lookup finds
nothing — `_get_model_attrs` propagates `FieldDoesNotExist`, and `on_field`
on an auto field propagates it too, aborting class creation at decoration
time; likewise a `property`/`cached_property` without a return annotation
raises `MissingFieldAnnotationError` which propagates through `on_field`.
No recovery happens in either case. -/
theorem missing_attr_aborts_decoration (ext : DjangoTypeExtension)
    (f : StrawberryDjangoFieldBase)
    (hmf : get_model_field ext.model (modelNameOf f) =
      .error .fieldDoesNotExist) :
    (lookupAttr ext.model (modelNameOf f) = none →
      get_model_attrs ext f = .error .fieldDoesNotExist ∧
      (f.ann = .resolved .auto →
        on_field ext f = .error .fieldDoesNotExist)) ∧
    (∀ a, lookupAttr ext.model (modelNameOf f) = some a →
      (a = .prop none ∨ a = .cachedProp none) →
      get_model_attrs ext f = .error .missingFieldAnn ∧
      (f.ann = .resolved .auto →
        on_field ext f = .error .missingFieldAnn)) := by
  constructor
  · intro hl
    have h1 : get_model_attrs ext f = .error .fieldDoesNotExist := by
      simp only [get_model_attrs, hmf, hl]
    refine ⟨h1, fun hann => ?_⟩
    simp only [on_field, hann, is_auto_t, if_true, h1, Except.map]
  · intro a hl hcase
    have h2 : get_model_attrs ext f = .error .missingFieldAnn := by
      rcases hcase with h | h <;> subst h <;>
        simp [get_model_attrs, hmf, hl, attrTruthy]
    refine ⟨h2, fun hann => ?_⟩
    simp only [on_field, hann, is_auto_t, if_true, h2, Except.map]

/-- A model with one real column, a property lacking a return annotation, and
nothing else — for exercising the decoration-time error paths. -/
def propModel : DModel :=
  { name := "PropModel", fields := [idField], relations := [],
    attrs := [("bad_prop", .prop none)] }

/-- Decorating `PropModel` as a plain type. -/
def propExt : DjangoTypeExtension :=
  DjangoTypeExtension.init propModel false false false .no .noneArg none
    settingsOff

/-- C7 witness: on the concrete model, the auto field `gone` (no such
attribute) aborts with `FieldDoesNotExist` and the property `bad_prop`
(no return annotation) aborts with the missing-annotation error, both
propagating through `on_field`. -/
theorem missing_attr_aborts_decoration_witness :
    (get_model_attrs propExt (autoFieldNamed "gone") =
        .error .fieldDoesNotExist ∧
      on_field propExt (autoFieldNamed "gone") =
        .error .fieldDoesNotExist) ∧
    (get_model_attrs propExt (autoFieldNamed "bad_prop") =
        .error .missingFieldAnn ∧
      on_field propExt (autoFieldNamed "bad_prop") =
        .error .missingFieldAnn) := by
  have h1 := (missing_attr_aborts_decoration propExt
    (autoFieldNamed "gone") rfl).1 rfl
  have h2 := (missing_attr_aborts_decoration propExt
    (autoFieldNamed "bad_prop") rfl).2 (.prop none) rfl (Or.inl rfl)
  exact ⟨⟨h1.1, h1.2 rfl⟩, ⟨h2.1, h2.2 rfl⟩⟩

/-! ## C5 and C6: lazy type resolution -/

/-- The model-derived type stored by `resolve_type` is never the `auto`
placeholder. -/
theorem model_ty_not_auto (g : DField) (p b : Bool) :
    is_auto_t (if b then GType.optional (resolve_model_field_type g p)
      else resolve_model_field_type g p) = false := by
  cases b with
  | true => rfl
  | false =>
      cases hk : g.kind with
      | scalar k =>
          cases k <;> simp [resolve_model_field_type, hk, scalarTy, is_auto_t]
      | foreignKey r t => simp [resolve_model_field_type, hk, is_auto_t]
      | manyToMany r =>
          cases p <;> simp [resolve_model_field_type, hk, is_auto_t]
      | reverseRel r =>
          cases p <;> simp [resolve_model_field_type, hk, is_auto_t]

/-- After unwrapping, the model-derived type stored by `resolve_type` is
neither `Any` nor the `auto` placeholder, so a second resolution pass takes
the non-lookup branch. -/
theorem model_ty_not_auto_any (g : DField) (p b : Bool) :
    ((match unwrap_type (if b then
        GType.optional (resolve_model_field_type g p)
        else resolve_model_field_type g p) with
      | GType.anyT => true
      | _ => false) ||
     is_auto_t (unwrap_type (if b then
        GType.optional (resolve_model_field_type g p)
        else resolve_model_field_type g p))) = false := by
  have hu : unwrap_type (if b then
      GType.optional (resolve_model_field_type g p)
      else resolve_model_field_type g p) =
        unwrap_type (resolve_model_field_type g p) := by
    cases b <;> simp [unwrap_type]
  rw [hu]
  cases hk : g.kind with
  | scalar k =>
      cases k <;> simp [resolve_model_field_type, hk, scalarTy, unwrap_type,
        is_auto_t]
  | foreignKey r t =>
      simp [resolve_model_field_type, hk, unwrap_type, is_auto_t]
  | manyToMany r =>
      cases p <;> simp [resolve_model_field_type, hk, unwrap_type, is_auto_t]
  | reverseRel r =>
      cases p <;> simp [resolve_model_field_type, hk, unwrap_type, is_auto_t]

/-- C5: `resolve_type` is idempotent and memoized.  A successful call performs
at most one model lookup, and a second call on the resulting field state
returns the very same value, performs no model lookup, and leaves the state
unchanged — the type slot mutates at most once and is then cached. -/
theorem resolve_type_idempotent (f f1 : StrawberryDjangoFieldBase)
    (r1 : RRes) (n1 : Nat)
    (h : f.resolve_type = .ok ⟨r1, f1, n1⟩) :
    n1 ≤ 1 ∧ f1.resolve_type = .ok ⟨r1, f1, 0⟩ := by
  cases hann : f.ann with
  | unresolvable =>
      simp only [StrawberryDjangoFieldBase.resolve_type, hann,
        super_resolve_type, Except.ok.injEq, ResolveOutcome.mk.injEq] at h
      obtain ⟨hr, hf, hn⟩ := h
      subst hr; subst hf; subst hn
      refine ⟨Nat.zero_le 1, ?_⟩
      simp [StrawberryDjangoFieldBase.resolve_type, hann, super_resolve_type]
  | resolved t =>
      cases hdd : f.djangoDef with
      | none =>
          simp only [StrawberryDjangoFieldBase.resolve_type, hann,
            super_resolve_type, hdd, Except.ok.injEq,
            ResolveOutcome.mk.injEq] at h
          obtain ⟨hr, hf, hn⟩ := h
          subst hr; subst hf; subst hn
          refine ⟨Nat.zero_le 1, ?_⟩
          simp [StrawberryDjangoFieldBase.resolve_type, hann,
            super_resolve_type, hdd]
      | some dd =>
          cases hc : ((match unwrap_type t with
              | GType.anyT => true
              | _ => false) || is_auto_t (unwrap_type t)) with
          | false =>
              simp only [StrawberryDjangoFieldBase.resolve_type, hann,
                super_resolve_type, hdd, hc, Bool.false_eq_true, if_false,
                Except.ok.injEq, ResolveOutcome.mk.injEq] at h
              obtain ⟨hr, hf, hn⟩ := h
              subst hr; subst hf; subst hn
              refine ⟨Nat.zero_le 1, ?_⟩
              simp [StrawberryDjangoFieldBase.resolve_type, hann,
                super_resolve_type, hdd, hc]
          | true =>
              cases hg : get_model_field dd.model (modelNameOf f) with
              | error e =>
                  simp [StrawberryDjangoFieldBase.resolve_type, hann,
                    super_resolve_type, hdd, hc, hg] at h
              | ok mf =>
                  simp only [StrawberryDjangoFieldBase.resolve_type, hann,
                    super_resolve_type, hdd, hc, if_true, hg,
                    Except.ok.injEq, ResolveOutcome.mk.injEq] at h
                  obtain ⟨hr, hf, hn⟩ := h
                  subst hr; subst hf; subst hn
                  refine ⟨Nat.le_refl 1, ?_⟩
                  simp only [StrawberryDjangoFieldBase.resolve_type,
                    super_resolve_type, hdd, model_ty_not_auto_any,
                    Bool.false_eq_true, if_false]

/-- The definition record of a partial input over `InputFieldsModel`. -/
def inputPartialDef : DjangoObjectDefinition :=
  { model := inputFieldsModel, isInput := true, isPartial := true,
    pagination := false }

/-- An auto `mandatory` field bound to the partial-input definition, before
its first resolution. -/
def mandatoryPartialField : StrawberryDjangoFieldBase :=
  { name := "mandatory", pythonName := some "mandatory",
    djangoNameAttr := none, description := none, ann := .resolved .auto,
    is_relation := false, djangoDef := some inputPartialDef }

/-- The same field after its only type-slot mutation: the annotation now
holds the model-derived `Optional[int]`. -/
def mandatoryPartialResolved : StrawberryDjangoFieldBase :=
  { name := "mandatory", pythonName := some "mandatory",
    djangoNameAttr := none, description := none,
    ann := .resolved (.optional .sInt), is_relation := false,
    djangoDef := some inputPartialDef }

/-- C5 witness: resolving the concrete auto field performs one lookup and
yields `Optional[int]`; the second call returns the same type from the cached
state with zero lookups. -/
theorem resolve_type_idempotent_witness :
    (1 : Nat) ≤ 1 ∧ mandatoryPartialResolved.resolve_type =
      .ok ⟨.ty (.optional .sInt), mandatoryPartialResolved, 0⟩ :=
  resolve_type_idempotent mandatoryPartialField mandatoryPartialResolved
    (.ty (.optional .sInt)) 1 rfl

/-- C6: for a field with a django definition, `resolve_type` never hands back
the `auto` placeholder: when the stored annotation cannot be evaluated in
this pass it returns the `UNRESOLVED` sentinel — an ordinary value, not an
exception, so callers can retry on a later pass — and any successfully
returned type is not the placeholder (a still-`auto` result is mapped to
`UNRESOLVED` by the final guard). -/
theorem resolve_type_defers_not_raises (f : StrawberryDjangoFieldBase)
    (dd : DjangoObjectDefinition) (hdd : f.djangoDef = some dd) :
    (f.ann = .unresolvable → f.resolve_type = .ok ⟨.unresolved, f, 0⟩) ∧
    (∀ r st n t, f.resolve_type = .ok ⟨r, st, n⟩ → r = .ty t →
      is_auto_t t = false) := by
  constructor
  · intro hann
    simp [StrawberryDjangoFieldBase.resolve_type, hann, super_resolve_type]
  · intro r st n t h hr
    subst hr
    cases hann : f.ann with
    | unresolvable =>
        simp [StrawberryDjangoFieldBase.resolve_type, hann,
          super_resolve_type] at h
    | resolved u =>
        simp only [StrawberryDjangoFieldBase.resolve_type, hann,
          super_resolve_type, hdd] at h
        cases hc : ((match unwrap_type u with
            | GType.anyT => true
            | _ => false) || is_auto_t (unwrap_type u)) with
        | false =>
            simp only [hc, Bool.false_eq_true, if_false, finalizeAuto,
              Except.ok.injEq, ResolveOutcome.mk.injEq] at h
            cases hau : is_auto_t u with
            | false =>
                rw [hau] at h
                simp only [Bool.false_eq_true, if_false,
                  RRes.ty.injEq] at h
                obtain ⟨ht, _, _⟩ := h
                subst ht
                exact hau
            | true =>
                rw [hau] at h
                simp at h
        | true =>
            cases hg : get_model_field dd.model (modelNameOf f) with
            | error e => simp [hc, hg] at h
            | ok mf =>
                simp only [hc, if_true, hg, super_resolve_type,
                  finalizeAuto, Except.ok.injEq,
                  ResolveOutcome.mk.injEq, model_ty_not_auto,
                  Bool.false_eq_true, if_false, RRes.ty.injEq] at h
                obtain ⟨ht, _, _⟩ := h
                subst ht
                exact model_ty_not_auto _ _ _

/-- The definition record of the plain `Fruit` type. -/
def fruitDef : DjangoObjectDefinition :=
  { model := fruitModel, isInput := false, isPartial := false,
    pagination := false }

/-- A field whose annotation is a not-yet-definable forward reference. -/
def forwardRefField : StrawberryDjangoFieldBase :=
  { name := "node", pythonName := some "node", djangoNameAttr := none,
    description := none, ann := .unresolvable, is_relation := false,
    djangoDef := some fruitDef }

/-- C6 witness: the concrete forward-reference field resolves to the
`UNRESOLVED` sentinel without an error, leaving the state untouched for a
later pass. -/
theorem resolve_type_defers_not_raises_witness :
    forwardRefField.resolve_type = .ok ⟨.unresolved, forwardRefField, 0⟩ :=
  (resolve_type_defers_not_raises forwardRefField fruitDef rfl).1 rfl

/-! ## C8: the before-phase auto injection -/

/-- The `name in cls_annotations` check agrees with dict lookup. -/
theorem any_key_iff_lookup {α : Type} (m : List (String × α)) (k : String) :
    (m.any fun p => p.1 == k) = (dictLookup m k).isSome := by
  induction m with
  | nil => rfl
  | cons p rest ih =>
      cases h : (p.1 == k) with
      | true => simp [dictLookup, List.find?, h]
      | false => simpa [dictLookup, List.find?, h] using ih

/-- Appending a fresh entry makes it visible to lookup. -/
theorem dictLookup_append_self {α : Type} (m : List (String × α)) (k : String)
    (v : α) (h : dictLookup m k = none) :
    dictLookup (m ++ [(k, v)]) k = some v := by
  have hf : m.find? (fun p => p.1 == k) = none := by
    cases hx : m.find? (fun p => p.1 == k) with
    | none => rfl
    | some p => simp [dictLookup, hx] at h
  simp [dictLookup, List.find?_append, hf, List.find?]

/-- Appending an entry does not change lookups of other keys. -/
theorem dictLookup_append_other {α : Type} (m : List (String × α))
    (k k' : String) (v : α) (h : (k == k') = false) :
    dictLookup (m ++ [(k, v)]) k' = dictLookup m k' := by
  have hs : List.find? (fun p => p.1 == k') [(k, v)] = none := by
    simp [List.find?, h]
  cases hx : m.find? (fun p => p.1 == k') with
  | none => simp [dictLookup, List.find?_append, hx, hs]
  | some p => simp [dictLookup, List.find?_append, hx]

/-- The lookup characterization of the auto-injection loop of lines 138-141:
a name receives the `auto` annotation exactly when it is among the selected
names, not already in the annotations dict, and not an existing class
attribute; every other name keeps its original lookup result. -/
theorem inject_loop_lookup (attrs : List String) (names : List String)
    (acc : List (String × GType)) (name : String) :
    dictLookup (names.foldl (fun anns n =>
        if anns.any (fun p => p.1 == n) || attrs.contains n then anns
        else anns ++ [(n, GType.auto)]) acc) name =
      if names.contains name && (dictLookup acc name).isNone &&
          !attrs.contains name
      then some GType.auto else dictLookup acc name := by
  induction names generalizing acc with
  | nil => simp
  | cons n rest ih =>
      simp only [List.foldl]
      cases hstep : ((acc.any fun p => p.1 == n) || attrs.contains n) with
      | true =>
          rw [if_pos rfl]
          rw [ih acc]
          cases hname : (name == n) with
          | false =>
              have hc : (n :: rest).contains name = rest.contains name := by
                simp only [List.contains_cons, Bool.or_eq_true]
                rw [hname]
                simp
              rw [hc]
          | true =>
              have hEq : name = n := eq_of_beq hname
              subst hEq
              rcases Bool.or_eq_true_iff.mp hstep with hacc | hattr
              · rw [any_key_iff_lookup] at hacc
                have : (dictLookup acc name).isNone = false := by
                  cases hx : dictLookup acc name with
                  | none => rw [hx] at hacc; simp at hacc
                  | some v => rfl
                rw [this]
                simp
              · rw [hattr]
                simp
      | false =>
          rw [if_neg Bool.false_ne_true]
          rw [ih (acc ++ [(n, GType.auto)])]
          have hnone : dictLookup acc n = none := by
            have hacc : (acc.any fun p => p.1 == n) = false :=
              (Bool.or_eq_false_iff.mp hstep).1
            rw [any_key_iff_lookup] at hacc
            cases hx : dictLookup acc n with
            | none => rfl
            | some v => rw [hx] at hacc; simp at hacc
          have hattr : attrs.contains n = false :=
            (Bool.or_eq_false_iff.mp hstep).2
          cases hname : (name == n) with
          | true =>
              have hEq : name = n := eq_of_beq hname
              subst hEq
              rw [dictLookup_append_self acc name GType.auto hnone]
              rw [hnone, hattr]
              simp [List.contains_cons]
          | false =>
              have hBne : (n == name) = false := by
                cases hx : (n == name) with
                | false => rfl
                | true => rw [eq_of_beq hx, beq_self_eq_true] at hname; exact hname
              rw [dictLookup_append_other acc n name GType.auto hBne]
              have hc : (n :: rest).contains name = rest.contains name := by
                simp only [List.contains_cons, Bool.or_eq_true]
                rw [hname]
                simp
              rw [hc]

/-- C8: in the before phase, for every name selected by the `fields`/
`exclude` configuration (explicit list, `"__all__"`, or a non-empty exclusion
list, minus `"id"` under the global-id setting), the engine injects the
`auto` placeholder annotation exactly when the name is neither already in the
class's own annotations nor an existing class attribute; already-declared
names keep their annotation untouched. -/
theorem before_phase_injects_auto (model : DModel) (fields : FieldsArg)
    (exclude : Option (List String)) (settings : Settings)
    (isInput isPag isPart : Bool) (isFilt : IsFilter) (cls : ClsState)
    (name : String) :
    dictLookup (inject_auto_fields
      (DjangoTypeExtension.init model isInput isPag isPart isFilt fields
        exclude settings) cls) name =
      if (computeModelFieldNames model fields exclude
            settings.mapAutoIdAsGlobalId).contains name &&
          (dictLookup cls.anns name).isNone &&
          !cls.attrNames.contains name
      then some GType.auto else dictLookup cls.anns name := by
  have h := inject_loop_lookup cls.attrNames
    (computeModelFieldNames model fields exclude settings.mapAutoIdAsGlobalId)
    cls.anns name
  simpa [inject_auto_fields, DjangoTypeExtension.init] using h
